import Mathlib

/-!
Shallow embedding of the statusTracker repository (Python) in Lean 4.

Dynamic Python values carried in webhook payloads are modelled by the
inductive type `Json`.  Operations that can raise in Python (attribute
access on a non-dict, subscripting a missing key, pydantic validation)
return `Except PyErr`.  Each module of the repository is embedded by
functions named after the source symbols they translate.
-/

/-- A JSON-like dynamic value, as produced by Python `json.loads` and passed
through webhook payloads.  Numbers are modelled as integers (no payload
field relevant to the verified claims carries a float). -/
inductive Json where
  | null : Json
  | bool (b : Bool) : Json
  | num (n : Int) : Json
  | str (s : String) : Json
  | arr (elems : List Json) : Json
  | obj (fields : List (String × Json)) : Json
deriving Repr, Inhabited

/-- Python exception classes that the embedded code can raise. -/
inductive PyErr where
  | keyError (k : String) : PyErr
  | indexError : PyErr
  | attributeError (method : String) : PyErr
  | typeError (msg : String) : PyErr
  | validationError : PyErr
  | jsonDecodeError : PyErr
  | httpStatusError (code : Nat) : PyErr
deriving Repr, DecidableEq

mutual

/-- Structural (Boolean) equality on `Json`, used where Python compares
dictionary keys or list members. -/
def Json.beq : Json → Json → Bool
  | .str p, .str q => p == q
  | .num p, .num q => p == q
  | .bool p, .bool q => p == q
  | .null, .null => true
  | .arr p, .arr q => Json.beqList p q
  | .obj p, .obj q => Json.beqFields p q
  | _, _ => false

def Json.beqList : List Json → List Json → Bool
  | p :: ps, q :: qs => Json.beq p q && Json.beqList ps qs
  | ps, qs => ps.isEmpty && qs.isEmpty

def Json.beqFields (es fs : List (String × Json)) : Bool :=
  match es, fs with
  | e₁ :: r₁, e₂ :: r₂ => e₁.1 == e₂.1 && Json.beq e₁.2 e₂.2 && Json.beqFields r₁ r₂
  | r₁, r₂ => r₁.isEmpty && r₂.isEmpty

end

instance : BEq Json := ⟨Json.beq⟩

/-- Association-list lookup for JSON object fields (first binding wins,
matching Python dict semantics once duplicate keys are collapsed). -/
def Json.lookupField : List (String × Json) → String → Option Json
  | [], _ => none
  | (k, v) :: fs, key => if k == key then some v else Json.lookupField fs key

/-- Python `d.get(key, default)`.  Raises `AttributeError` when the receiver
is not a dict. -/
def pyGet (j : Json) (key : String) (default : Json) : Except PyErr Json :=
  match j with
  | .obj fields => .ok ((Json.lookupField fields key).getD default)
  | _ => .error (.attributeError "get")

/-- Python truthiness of a JSON value (`if x:`). -/
def pyTruthy : Json → Bool
  | .null => false
  | .bool b => b
  | .num n => n != 0
  | .str s => !s.isEmpty
  | .arr xs => !xs.isEmpty
  | .obj fs => !fs.isEmpty

/-- Python `str.lower` (ASCII case mapping, which covers every payload
constant of this repository). -/
def strLower (s : String) : String := String.mk (s.data.map Char.toLower)

/-- Python `str.upper` (ASCII case mapping). -/
def strUpper (s : String) : String := String.mk (s.data.map Char.toUpper)

/-- Python `x.lower()`; `AttributeError` on non-strings. -/
def pyLower (j : Json) : Except PyErr String :=
  match j with
  | .str s => .ok (strLower s)
  | _ => .error (.attributeError "lower")

/-- Python `x.upper()`; `AttributeError` on non-strings. -/
def pyUpper (j : Json) : Except PyErr String :=
  match j with
  | .str s => .ok (strUpper s)
  | _ => .error (.attributeError "upper")

/-- Python `str.capitalize`: first character upper-cased, all remaining
characters lower-cased. -/
def pyCapitalize (s : String) : String :=
  match s.data with
  | [] => ""
  | c :: cs => String.mk (c.toUpper :: cs.map Char.toLower)

/-- Helper for `pyTitle`: tracks whether the previous character was a letter. -/
def pyTitleAux : Bool → List Char → List Char
  | _, [] => []
  | prevAlpha, c :: cs =>
    if c.isAlpha then
      (if prevAlpha then c.toLower else c.toUpper) :: pyTitleAux true cs
    else
      c :: pyTitleAux false cs

/-- Python `str.title`: the first letter of every maximal run of letters is
upper-cased, the rest of the run lower-cased. -/
def pyTitle (s : String) : String := String.mk (pyTitleAux false s.data)

/-- Replace every non-overlapping occurrence of `o :: os` in a character
list by `nw`, scanning left to right.  The fuel argument starts at the
length of the list, which bounds the number of steps. -/
def strReplaceAux (o : Char) (os nw : List Char) : Nat → List Char → List Char
  | 0, l => l
  | _ + 1, [] => []
  | fuel + 1, c :: cs =>
    if (o :: os).isPrefixOf (c :: cs) then
      nw ++ strReplaceAux o os nw fuel (cs.drop os.length)
    else
      c :: strReplaceAux o os nw fuel cs

/-- Python `str.replace` with an empty search string: the replacement is
inserted at every character boundary. -/
def strReplaceEmpty (nw : List Char) : List Char → List Char
  | [] => nw
  | c :: cs => nw ++ c :: strReplaceEmpty nw cs

/-- Python `s.replace(old, new)` for strings. -/
def strReplace (s old nw : String) : String :=
  match old.data with
  | [] => String.mk (strReplaceEmpty nw.data s.data)
  | o :: os => String.mk (strReplaceAux o os nw.data s.data.length s.data)

/-- Python `x.replace(old, new)`; `AttributeError` on non-strings. -/
def pyReplace (j : Json) (old nw : String) : Except PyErr String :=
  match j with
  | .str s => .ok (strReplace s old nw)
  | _ => .error (.attributeError "replace")

/-- Boolean substring test over character lists. -/
def isSubstrAux (needle : List Char) : List Char → Bool
  | [] => needle.isEmpty
  | c :: cs => needle.isPrefixOf (c :: cs) || isSubstrAux needle cs

/-- Python `needle in hay` for strings. -/
def pyStrContains (hay needle : String) : Bool := isSubstrAux needle.data hay.data

mutual

/-- Python `repr` of a JSON value (used when f-strings and `str()` render
containers). -/
def Json.pyRepr : Json → String
  | .null => "None"
  | .bool true => "True"
  | .bool false => "False"
  | .num n => toString n
  | .str s => "'" ++ s ++ "'"
  | .arr xs => "[" ++ String.intercalate ", " (Json.pyReprList xs) ++ "]"
  | .obj fs => "\x7b" ++ String.intercalate ", " (Json.pyReprFields fs) ++ "\x7d"

def Json.pyReprList : List Json → List String
  | [] => []
  | x :: xs => Json.pyRepr x :: Json.pyReprList xs

def Json.pyReprFields : List (String × Json) → List String
  | [] => []
  | (k, v) :: fs =>
    ("'" ++ k ++ "': " ++ Json.pyRepr v) :: Json.pyReprFields fs

end

/-- Python `str(x)`, as used by f-string interpolation. -/
def pyStr (j : Json) : String :=
  match j with
  | .str s => s
  | _ => j.pyRepr

/-- Python `key in x` (dict key test, list membership, substring test). -/
def pyInJson (key : String) (j : Json) : Except PyErr Bool :=
  match j with
  | .obj fs => .ok (Json.lookupField fs key).isSome
  | .arr xs => .ok (xs.contains (.str key))
  | .str s => .ok (pyStrContains s key)
  | _ => .error (.typeError "argument of type is not iterable")

/-- Python `x[0]` (first subscript). -/
def pyIndex0 (j : Json) : Except PyErr Json :=
  match j with
  | .arr [] => .error .indexError
  | .arr (x :: _) => .ok x
  | .str s =>
    match s.data with
    | [] => .error .indexError
    | c :: _ => .ok (.str (String.mk [c]))
  | .obj _ => .error (.keyError "0")
  | _ => .error (.typeError "object is not subscriptable")

/-- Python `x[key]` with a string key: dict lookup raising `KeyError` when
missing, `TypeError` on non-dicts. -/
def pySubscript (j : Json) (key : String) : Except PyErr Json :=
  match j with
  | .obj fs =>
    match Json.lookupField fs key with
    | some v => .ok v
    | none => .error (.keyError key)
  | _ => .error (.typeError "indices must be integers")

/-- Python iteration `for x in j` (lists yield elements, strings yield
one-character strings, dicts yield their keys). -/
def pyIter (j : Json) : Except PyErr (List Json) :=
  match j with
  | .arr xs => .ok xs
  | .str s => .ok (s.data.map (fun c => Json.str (String.mk [c])))
  | .obj fs => .ok (fs.map (fun kv => Json.str kv.1))
  | _ => .error (.typeError "object is not iterable")

/-- Python `len(x)` for sized values. -/
def pyLen (j : Json) : Except PyErr Nat :=
  match j with
  | .arr xs => .ok xs.length
  | .str s => .ok s.length
  | .obj fs => .ok fs.length
  | _ => .error (.typeError "object has no len")

/-! JSON parsing (model of Python `json.loads`). -/

/-- JSON whitespace characters. -/
def jsonWsChars : List Char := [' ', '\t', '\n', '\r']

/-- Skip JSON whitespace. -/
def jsonSkipWs : List Char → List Char
  | c :: cs => if jsonWsChars.contains c then jsonSkipWs cs else c :: cs
  | [] => []

/-- Consume an expected literal. -/
def jsonExpect (lit : List Char) (cs : List Char) : Option (List Char) :=
  if lit.isPrefixOf cs then some (cs.drop lit.length) else none

/-- Parse a run of decimal digits (at least one). -/
def jsonDigits : List Char → Option (Nat × List Char)
  | c :: cs =>
    if c.isDigit then
      match jsonDigits cs with
      | some (n, rest) => some (n, rest)
      | none => some (0, c :: cs)
    else none
  | [] => none

/-- Accumulate the numeric value of a leading digit run. -/
def jsonDigitsVal : Nat → List Char → Nat × List Char
  | acc, c :: cs =>
    if c.isDigit then jsonDigitsVal (acc * 10 + (c.toNat - 48)) cs else (acc, c :: cs)
  | acc, [] => (acc, [])

/-- Hexadecimal value of a character, if any. -/
def hexVal (c : Char) : Option Nat :=
  let n := c.toNat
  if 48 ≤ n ∧ n ≤ 57 then some (n - 48)
  else if 97 ≤ n ∧ n ≤ 102 then some (n - 87)
  else if 65 ≤ n ∧ n ≤ 70 then some (n - 55)
  else none

/-- The single-character JSON escape table (everything except `\u`). -/
def jsonEscTable : List (Char × Char) :=
  [ ('"', '"'), ('\\', '\\'), ('/', '/'), ('n', '\n'),
    ('t', '\t'), ('r', '\r'), ('b', '\x08'), ('f', '\x0c')]

/-- Translate a single-character JSON escape through `jsonEscTable`. -/
def jsonEscChar (e : Char) : Option Char :=
  (jsonEscTable.find? (fun pr => pr.1 == e)).map Prod.snd

/-- Parse the body of a JSON string after the opening quote, handling the
standard escapes. -/
def jsonStringBody : List Char → Option (List Char × List Char)
  | [] => none
  | '"' :: rest => some ([], rest)
  | '\\' :: 'u' :: h₁ :: h₂ :: h₃ :: h₄ :: rest =>
    (match hexVal h₁, hexVal h₂, hexVal h₃, hexVal h₄ with
     | some v₁, some v₂, some v₃, some v₄ =>
       let n := ((v₁ * 16 + v₂) * 16 + v₃) * 16 + v₄
       if n.isValidChar then
         match jsonStringBody rest with
         | some (s, rest₂) => some (Char.ofNat n :: s, rest₂)
         | none => none
       else none
     | _, _, _, _ => none)
  | '\\' :: e :: rest =>
    (match jsonEscChar e with
     | some c =>
       match jsonStringBody rest with
       | some (s, rest₂) => some (c :: s, rest₂)
       | none => none
     | none => none)
  | c :: rest =>
    match jsonStringBody rest with
    | some (s, rest₂) => some (c :: s, rest₂)
    | none => none

/-- Combine an object field with the fields parsed after it: as in a Python
dict, a key keeps the position of its first occurrence but the value of its
last occurrence. -/
def objUpsert (k : String) (v : Json) (fs : List (String × Json)) : List (String × Json) :=
  match Json.lookupField fs k with
  | some v₂ => (k, v₂) :: fs.filter (fun kv => kv.1 ≠ k)
  | none => (k, v) :: fs

mutual

/-- Parse one JSON value (fuel-bounded recursive-descent). -/
def jsonVal : Nat → List Char → Option (Json × List Char)
  | 0, _ => none
  | fuel + 1, cs =>
    match jsonSkipWs cs with
    | [] => none
    | '"' :: rest =>
      match jsonStringBody rest with
      | some (s, rest₂) => some (.str (String.mk s), rest₂)
      | none => none
    | '[' :: rest =>
      (match jsonSkipWs rest with
       | ']' :: rest₂ => some (.arr [], rest₂)
       | other =>
         match jsonArrElems fuel other with
         | some (xs, rest₂) => some (.arr xs, rest₂)
         | none => none)
    | '\x7b' :: rest =>
      (match jsonSkipWs rest with
       | '\x7d' :: rest₂ => some (.obj [], rest₂)
       | other =>
         match jsonObjFields fuel other with
         | some (fs, rest₂) => some (.obj fs, rest₂)
         | none => none)
    | '-' :: rest =>
      (match jsonDigits rest with
       | some _ =>
         let p := jsonDigitsVal 0 rest
         match p.2 with
         | c :: _ => if c = '.' ∨ c = 'e' ∨ c = 'E' then none else some (.num (-(p.1 : Int)), p.2)
         | [] => some (.num (-(p.1 : Int)), [])
       | none => none)
    | c :: rest =>
      if c.isDigit then
        let p := jsonDigitsVal 0 (c :: rest)
        match p.2 with
        | d :: _ => if d = '.' ∨ d = 'e' ∨ d = 'E' then none else some (.num (p.1 : Int), p.2)
        | [] => some (.num (p.1 : Int), [])
      else if c = 't' then
        match jsonExpect "true".data (c :: rest) with
        | some rest₂ => some (.bool true, rest₂)
        | none => none
      else if c = 'f' then
        match jsonExpect "false".data (c :: rest) with
        | some rest₂ => some (.bool false, rest₂)
        | none => none
      else if c = 'n' then
        match jsonExpect "null".data (c :: rest) with
        | some rest₂ => some (.null, rest₂)
        | none => none
      else none

/-- Parse the comma-separated elements of an array, up to the closing bracket. -/
def jsonArrElems : Nat → List Char → Option (List Json × List Char)
  | 0, _ => none
  | fuel + 1, cs =>
    match jsonVal fuel cs with
    | some (v, rest) =>
      (match jsonSkipWs rest with
       | ',' :: rest₂ =>
         match jsonArrElems fuel rest₂ with
         | some (xs, rest₃) => some (v :: xs, rest₃)
         | none => none
       | ']' :: rest₂ => some ([v], rest₂)
       | _ => none)
    | none => none

/-- Parse the comma-separated fields of an object, up to the closing brace.
A duplicated key keeps its first position but the last value, as in Python. -/
def jsonObjFields : Nat → List Char → Option (List (String × Json) × List Char)
  | 0, _ => none
  | fuel + 1, cs =>
    match jsonSkipWs cs with
    | '"' :: rest =>
      (match jsonStringBody rest with
       | some (k, rest₂) =>
         (match jsonSkipWs rest₂ with
          | ':' :: rest₃ =>
            (match jsonVal fuel rest₃ with
             | some (v, rest₄) =>
               (match jsonSkipWs rest₄ with
                | ',' :: rest₅ =>
                  (match jsonObjFields fuel rest₅ with
                   | some (fs, rest₆) => some (objUpsert (String.mk k) v fs, rest₆)
                   | none => none)
                | '\x7d' :: rest₅ => some ([(String.mk k, v)], rest₅)
                | _ => none)
             | none => none)
          | _ => none)
       | none => none)
    | _ => none

end

/-- Model of Python `json.loads` over text bodies: parse one JSON document,
allowing surrounding whitespace only. -/
def jsonLoads (s : String) : Option Json :=
  match jsonVal (4 * s.length + 8) s.data with
  | some (j, rest) => if (jsonSkipWs rest).isEmpty then some j else none
  | none => none

/-! adapters/base.py -/

/-- The canonical event produced by every adapter (pydantic `NormalizedEvent`).
The `timestamp` field is filled from the wall clock at construction time
(default factory), modelled by an explicit `now` argument. -/
structure NormalizedEvent where
  product : String
  status : String
  timestamp : String
  provider : String
  raw : Json
deriving Repr

/-- Construction of a `NormalizedEvent` through pydantic validation: `product`
and `status` must be strings and `raw` must be a dict, else a
`ValidationError` is raised.  `timestamp` defaults to the current time
(`now`). -/
def mkNormalizedEvent (product status : Json) (provider : String) (raw : Json)
    (now : String) : Except PyErr NormalizedEvent :=
  match product, status, raw with
  | .str p, .str s, .obj fs => .ok ⟨p, s, now, provider, .obj fs⟩
  | _, _, _ => .error .validationError

/-! adapters/apple_adapter.py -/

/-- List comprehension `[s for s in services if s.get("events")]`: services
whose `events` list is truthy (a non-empty list signals an active issue). -/
def appleIssues : List Json → Except PyErr (List Json)
  | [] => .ok []
  | s :: rest => do
    let ev ← pyGet s "events" .null
    let tail ← appleIssues rest
    if pyTruthy ev then .ok (s :: tail) else .ok tail

/-- Per-service summary loop of `AppleAdapter.parse`: for each affected
service produce `"{name}: {statusType} ({eventStatus})[ - {users}]"` from
its first event. -/
def appleSummaries : List Json → Except PyErr (List String)
  | [] => .ok []
  | svc :: rest => do
    let name ← pyGet svc "serviceName" (.str "Unknown Service")
    let events ← pyGet svc "events" (.arr [])
    let event ← if pyTruthy events then pyIndex0 events else pure (Json.obj [])
    let statusType ← pyGet event "statusType" (.str "Issue")
    let eventStatus ← pyGet event "eventStatus" (.str "ongoing")
    let users ← pyGet event "usersAffected" (.str "")
    let summary := pyStr name ++ ": " ++ pyStr statusType ++ " (" ++ pyStr eventStatus ++ ")"
    let summary := if pyTruthy users then summary ++ " - " ++ pyStr users else summary
    let tail ← appleSummaries rest
    .ok (summary :: tail)

/-- Embedding of `AppleAdapter.parse`. -/
def appleParse (payload : Json) (now : String) : Except PyErr NormalizedEvent := do
  let data ← pyGet payload "data" .null
  if !pyTruthy data then
    mkNormalizedEvent (.str "Apple Services") (.str "No status data received.")
      "apple" payload now
  else
    let services ← pyGet data "services" (.arr [])
    let svcList ← pyIter services
    let issues ← appleIssues svcList
    if !issues.isEmpty then
      let summaries ← appleSummaries issues
      mkNormalizedEvent
        (.str ("Apple Services (" ++ toString issues.length ++ " affected)"))
        (.str (String.intercalate " | " summaries)) "apple" payload now
    else
      mkNormalizedEvent (.str "Apple Services")
        (.str "All services are operating normally.") "apple" payload now

/-! adapters/discord_adapter.py -/

/-- Fixed map from Atlassian page indicator codes to friendly severity
labels (`_INDICATOR_MAP`). -/
def INDICATOR_MAP : List (String × String) :=
  [("none", "Operational"),
   ("minor", "Degraded Performance"),
   ("major", "Partial Outage"),
   ("critical", "Major Outage")]

/-- Lookup in a string-to-string table. -/
def lookupStr : List (String × String) → String → Option String
  | [], _ => none
  | (k, v) :: rest, key => if k = key then some v else lookupStr rest key

/-- Embedding of `DiscordAdapter.parse`. -/
def discordParse (payload : Json) (now : String) : Except PyErr NormalizedEvent := do
  let page ← pyGet payload "page" (.obj [])
  let pageName ← pyGet page "name" (.str "Discord")
  let incidents ← pyGet payload "incidents" (.arr [])
  if pyTruthy incidents then
    let activeIncident ← pyIndex0 incidents
    let componentName ← pyGet activeIncident "name" (.str "Unknown Service")
    let updates ← pyGet activeIncident "incident_updates" (.arr [])
    let rawStatus ←
      if pyTruthy updates then do
        let u0 ← pyIndex0 updates
        pyGet u0 "body" .null
      else
        pyGet activeIncident "name" (.str "")
    let statusText := if pyTruthy rawStatus then rawStatus else Json.str "No details available."
    mkNormalizedEvent (.str (pyStr pageName ++ " " ++ pyStr componentName)) statusText
      "discord" payload now
  else
    let statusObj ← pyGet payload "status" (.obj [])
    let indicator ← pyGet statusObj "indicator" (.str "none")
    let description ← pyGet statusObj "description" (.str "All Systems Operational")
    let indicatorStr ←
      match indicator with
      | .str s => Except.ok s
      | _ => Except.error (.attributeError "capitalize")
    let friendlyLabel := (lookupStr INDICATOR_MAP indicatorStr).getD (pyCapitalize indicatorStr)
    let statusText := friendlyLabel ++ " - " ++ pyStr description
    mkNormalizedEvent (.str (pyStr pageName ++ " Platform")) (.str statusText)
      "discord" payload now

/-! adapters/openai_adapter.py -/

/-- Embedding of `OpenAIAdapter.parse`. -/
def openaiParse (payload : Json) (now : String) : Except PyErr NormalizedEvent := do
  let hasType ← pyInJson "incident_type" payload
  if hasType then
    let inc ← pyGet payload "incident" (.obj [])
    let incTypeJ ← pyGet payload "incident_type" (.str "unknown")
    let incType ← pyUpper incTypeJ
    let comps ← pyGet inc "components" (.arr [])
    let compsLen ← pyLen comps
    let product ←
      if compsLen = 1 then do
        let c0 ← pyIndex0 comps
        let nm ← pySubscript c0 "name"
        pure (Json.str ("OpenAI " ++ pyStr nm))
      else if pyTruthy comps then
        pure (Json.str ("OpenAI (" ++ toString compsLen ++ " components affected)"))
      else
        pyGet inc "title" (.str "OpenAI")
    let statusJ ← pyGet inc "status" (.str "unknown")
    let statusRep ← pyReplace statusJ "_" " "
    let statusLabel := pyTitle statusRep
    let messageJ ← pyGet inc "message" (.str "")
    let message ← if pyTruthy messageJ then pure messageJ else pyGet inc "title" (.str "No details.")
    let statusStr := "[" ++ incType ++ "] (" ++ statusLabel ++ ") " ++ pyStr message
    mkNormalizedEvent product (.str statusStr) "openai" payload now
  else
    let page ← pyGet payload "page" (.obj [])
    let pageName ← pyGet page "name" (.str "Unknown Page")
    let component ← pyGet payload "component" (.obj [])
    let compName ← pyGet component "name" (.str "Unknown Component")
    let inc ← pyGet payload "incident" (.obj [])
    let body ← pyGet inc "body" .null
    let status ←
      if pyTruthy body then pure body
      else do
        let nm ← pyGet inc "name" .null
        if pyTruthy nm then pure nm else pure (Json.str "No status message provided.")
    mkNormalizedEvent (.str (pyStr pageName ++ " " ++ pyStr compName)) status
      "openai" payload now

/-! worker/tasks.py -/

/-- The closed set of adapters behind `ADAPTER_REGISTRY`. -/
inductive Adapter where
  | openai : Adapter
  | discord : Adapter
  | apple : Adapter
deriving Repr, DecidableEq

/-- Dispatch of `adapter.parse(payload)` for a registry entry. -/
def Adapter.parse : Adapter → Json → String → Except PyErr NormalizedEvent
  | .openai, payload, now => openaiParse payload now
  | .discord, payload, now => discordParse payload now
  | .apple, payload, now => appleParse payload now

/-- Registry lookup `ADAPTER_REGISTRY.get(provider_name)`. -/
def ADAPTER_REGISTRY (key : String) : Option Adapter :=
  if key = "openai" then some .openai
  else if key = "discord" then some .discord
  else if key = "apple" then some .apple
  else none

/-- Outcome of `_process_item` when it returns without raising. -/
inductive ProcResult where
  | dropped (provider : String) : ProcResult
  | processed (event : NormalizedEvent) : ProcResult
deriving Repr

/-- Embedding of `_process_item`: read the provider key (default
`"unknown"`), lower-case it, look up the adapter and parse; a missing
adapter logs a warning and drops the item. -/
def processItem (item : Json) (now : String) : Except PyErr ProcResult := do
  let provJ ← pyGet item "provider" (.str "unknown")
  let providerName ← pyLower provJ
  let payload ← pyGet item "payload" (.obj [])
  match ADAPTER_REGISTRY providerName with
  | none => .ok (.dropped providerName)
  | some a => do
    let event ← a.parse payload now
    .ok (.processed event)

/-- What one iteration of the `start_worker` loop does with the dequeued
item: the `try`/`except` around `_process_item` converts any raised
exception into a logged outcome and the loop continues. -/
inductive WorkerOutcome where
  | logged (event : NormalizedEvent) : WorkerOutcome
  | droppedNoAdapter (provider : String) : WorkerOutcome
  | caughtException (e : PyErr) : WorkerOutcome
deriving Repr

/-- One iteration of the worker loop body. -/
def workerStep (item : Json) (now : String) : WorkerOutcome :=
  match processItem item now with
  | .ok (.processed e) => .logged e
  | .ok (.dropped p) => .droppedNoAdapter p
  | .error e => .caughtException e

/-- Embedding of the `start_worker` loop over a finite trace of dequeued
items: each item produces exactly one outcome and the loop then continues
with the rest. -/
def start_worker : List Json → String → List WorkerOutcome
  | [], _ => []
  | item :: rest, now => workerStep item now :: start_worker rest now

/-! api/routers/webhooks.py -/

/-- One item of the in-memory queue (`QueueItem`): built by the ingestion
endpoint as `\x7b"provider": provider_name.lower(), "payload": payload\x7d`. -/
def mkQueueItem (providerName : String) (payload : Json) : Json :=
  Json.obj [("provider", Json.str (strLower providerName)), ("payload", payload)]

/-- Embedding of `receive_webhook`: decode the body as JSON; on failure
answer HTTP 400 and leave the queue untouched, otherwise enqueue the item
and answer HTTP 202.  Returns the HTTP status and the updated queue. -/
def receive_webhook (providerName : String) (rawBody : String) (queue : List Json) :
    Nat × List Json :=
  match jsonLoads rawBody with
  | none => (400, queue)
  | some payload => (202, queue ++ [mkQueueItem providerName payload])

/-! Shared poller infrastructure (httpx + hashlib models). -/

/-- The parts of an `httpx` response a poller cycle reads. -/
structure HttpResponse where
  status : Nat
  etag : Option String
  lastModified : Option String
  body : String
deriving Repr, DecidableEq

/-- Outcome of one `client.get` call: the transport either fails to connect,
times out, or yields a response. -/
inductive GetOutcome where
  | connectError : GetOutcome
  | timeout : GetOutcome
  | ok (resp : HttpResponse) : GetOutcome
deriving Repr, DecidableEq

/-- Transport-level exceptions raised inside a poller cycle, alongside the
Python errors of `PyErr`. -/
inductive CycleErr where
  | connectError : CycleErr
  | timeoutError : CycleErr
  | httpStatusError (code : Nat) : CycleErr
  | pyExc (e : PyErr) : CycleErr
deriving Repr, DecidableEq

/-- Model of `hashlib.md5(body).hexdigest()`: an injective fingerprint of
the body (collisions of the real digest are assumed away).  Like a real hex
digest it is never the empty string, so it never collides with the initial
empty cache value. -/
def md5 (s : String) : String := "#" ++ s

/-- httpx `response.is_success`: status in the 2xx range.
`raise_for_status` raises exactly when this is false. -/
def is2xx (code : Nat) : Bool := decide (200 ≤ code) && decide (code < 300)

/-- Result of one poller cycle: the state kept for the next cycle, the
envelopes POSTed to the ingestion gateway during the cycle (in order), and
whether the poller process exited via the consecutive-error threshold. -/
structure CycleResult (φ σ : Type) where
  state : σ
  forwards : List φ
  exited : Bool
deriving Repr

/-- `MAX_CONSECUTIVE_ERRORS` (same constant in all three pollers). -/
def MAX_CONSECUTIVE_ERRORS : Nat := 5

/-! producers/discord_poller.py -/

/-- Mutable loop state of `poll_discord_status`. -/
structure DiscordState where
  lastEtag : String
  lastModified : String
  consecutiveErrors : Nat
deriving Repr, DecidableEq

/-- Initial Discord poller state (empty strings mean first request ever). -/
def discordInitialState : DiscordState := ⟨"", "", 0⟩

/-- One cycle of `poll_discord_status`.  `g` is the outcome of the GET on
the status endpoint, `gatewayStatus` the HTTP status the ingestion gateway
answers to a forward.  Forwards carry the raw response body (the poller
POSTs `response.content` unchanged). -/
def discordCycle (st : DiscordState) (g : GetOutcome) (gatewayStatus : Nat) :
    CycleResult String DiscordState :=
  let finish : DiscordState → List String → Option CycleErr → CycleResult String DiscordState :=
    fun st₂ fwds err =>
      match err with
      | none =>
        let st₃ := { st₂ with consecutiveErrors := 0 }
        ⟨st₃, fwds, decide (MAX_CONSECUTIVE_ERRORS ≤ st₃.consecutiveErrors)⟩
      | some _ =>
        let st₃ := { st₂ with consecutiveErrors := st₂.consecutiveErrors + 1 }
        ⟨st₃, fwds, decide (MAX_CONSECUTIVE_ERRORS ≤ st₃.consecutiveErrors)⟩
  match g with
  | .connectError => finish st [] (some .connectError)
  | .timeout => finish st [] (some .timeoutError)
  | .ok resp =>
    if resp.status = 304 then
      finish st [] none
    else if resp.status = 200 then
      let st₂ := { st with lastEtag := resp.etag.getD st.lastEtag,
                           lastModified := resp.lastModified.getD st.lastModified }
      match jsonLoads resp.body with
      | none => finish st₂ [] (some (.pyExc .jsonDecodeError))
      | some payload =>
        match (do
            let s ← pyGet payload "status" (.obj [])
            pyGet s "indicator" (.str "unknown") : Except PyErr Json) with
        | .error e => finish st₂ [] (some (.pyExc e))
        | .ok _ =>
          if is2xx gatewayStatus then
            finish st₂ [resp.body] none
          else
            finish st₂ [resp.body] (some (.httpStatusError gatewayStatus))
    else
      finish st [] none

/-! producers/apple_scraper.py -/

/-- Embedding of `_extract_json`: parse the body as plain JSON, else unwrap
JSONP-style `callback({...});` between the first `(` and the last `)`. -/
def appleExtractJson (text : String) : Option Json :=
  match jsonLoads text with
  | some j => some j
  | none =>
    let cs := text.data
    match cs.findIdx? (fun c => c = '('), cs.reverse.findIdx? (fun c => c = ')') with
    | some s, some rIdx =>
      let e := cs.length - 1 - rIdx
      if s < e then jsonLoads (String.mk ((cs.take e).drop (s + 1))) else none
    | _, _ => none

/-- Mutable loop state of `scrape_apple_status`. -/
structure AppleState where
  lastHash : String
  consecutiveErrors : Nat
deriving Repr, DecidableEq

/-- Initial Apple scraper state. -/
def appleInitialState : AppleState := ⟨"", 0⟩

/-- One cycle of `scrape_apple_status`.  Forwards carry the JSON envelope
`\x7b"provider": "apple", "data": <extracted JSON or null>\x7d`. -/
def appleCycle (st : AppleState) (g : GetOutcome) (gatewayStatus : Nat) :
    CycleResult Json AppleState :=
  let finish : AppleState → List Json → Option CycleErr → CycleResult Json AppleState :=
    fun st₂ fwds err =>
      match err with
      | none =>
        let st₃ := { st₂ with consecutiveErrors := 0 }
        ⟨st₃, fwds, decide (MAX_CONSECUTIVE_ERRORS ≤ st₃.consecutiveErrors)⟩
      | some _ =>
        let st₃ := { st₂ with consecutiveErrors := st₂.consecutiveErrors + 1 }
        ⟨st₃, fwds, decide (MAX_CONSECUTIVE_ERRORS ≤ st₃.consecutiveErrors)⟩
  match g with
  | .connectError => finish st [] (some .connectError)
  | .timeout => finish st [] (some .timeoutError)
  | .ok resp =>
    if is2xx resp.status then
      let data := appleExtractJson resp.body
      let currentHash := md5 resp.body
      if currentHash = st.lastHash then
        finish st [] none
      else
        let st₂ := { st with lastHash := currentHash }
        let envelope := Json.obj [("provider", Json.str "apple"), ("data", data.getD Json.null)]
        if is2xx gatewayStatus then
          finish st₂ [envelope] none
        else
          finish st₂ [envelope] (some (.httpStatusError gatewayStatus))
    else
      finish st [] (some (.httpStatusError resp.status))

/-! producers/openai_poller.py -/

/-- Model of `_fmt`: `'degraded_performance' → 'Degraded Performance'`. -/
def fmtStatus (status : String) : String := pyTitle (strReplace status "_" " ")

/-- Embedding of `_map_component_type`: Atlassian component status → incident
type. -/
def mapComponentType (status : String) : String :=
  if status = "operational" then "resolved"
  else if status = "degraded_performance" then "degradation"
  else if status = "partial_outage" then "outage"
  else if status = "major_outage" then "outage"
  else if status = "under_maintenance" then "maintenance"
  else "unknown"

/-- Embedding of `_classify_incident`: classify an incident dict into
`resolved`, `outage`, `degradation` or `new_incident`. -/
def classifyIncident (incident : Json) : Except PyErr String := do
  let impactJ ← pyGet incident "impact" (.str "")
  let impact ← pyLower impactJ
  let titleJ ← pyGet incident "name" (.str "")
  let titleLower ← pyLower titleJ
  let statusJ ← pyGet incident "status" (.str "")
  let statusLower ← pyLower statusJ
  if statusLower = "resolved" then
    pure "resolved"
  else if impact = "critical"
      || ["outage", "down", "unavailable"].any (fun kw => pyStrContains titleLower kw) then
    pure "outage"
  else if impact = "major"
      || ["degraded", "error", "latency"].any (fun kw => pyStrContains titleLower kw) then
    pure "degradation"
  else
    pure "new_incident"

/-- Values Python can hash (usable as dict keys); lists and dicts raise
`TypeError: unhashable type`. -/
def hashable : Json → Bool
  | .arr _ => false
  | .obj _ => false
  | _ => true

/-- Association lookup with Python (structural) key equality. -/
def dictFind {α : Type} : List (Json × α) → Json → Option α
  | [], _ => none
  | (k₂, v) :: rest, k => if Json.beq k₂ k then some v else dictFind rest k

/-- Python `d[k] = v`: an existing key keeps its position with the new
value, a new key is appended; unhashable keys raise `TypeError`. -/
def dictSet {α : Type} (d : List (Json × α)) (k : Json) (v : α) :
    Except PyErr (List (Json × α)) :=
  if hashable k then
    if (dictFind d k).isSome then
      .ok (d.map (fun kv => if Json.beq kv.1 k then (k, v) else kv))
    else
      .ok (d ++ [(k, v)])
  else .error (.typeError "unhashable type")

/-- Python `d.get(k)` on a built dict; unhashable keys raise `TypeError`. -/
def dictGet {α : Type} (d : List (Json × α)) (k : Json) : Except PyErr (Option α) :=
  if hashable k then .ok (dictFind d k) else .error (.typeError "unhashable type")

/-- The `current` dict built by the components section: iterate the
`components` list, skip group entries, record `name → status`. -/
def openaiBuildComponents : List Json → List (Json × Json) →
    Except PyErr (List (Json × Json))
  | [], acc => .ok acc
  | c :: rest, acc => do
    let grp ← pyGet c "group" (.bool false)
    if pyTruthy grp then
      openaiBuildComponents rest acc
    else do
      let nm ← pyGet c "name" (.str "?")
      let stv ← pyGet c "status" (.str "operational")
      let acc₂ ← dictSet acc nm stv
      openaiBuildComponents rest acc₂

/-- Mutable loop state of `poll_openai_status`. -/
structure OpenAIState where
  compEtag : String
  compModified : String
  incEtag : String
  incModified : String
  lastCompBodyHash : String
  lastIncBodyHash : String
  lastComponentStatuses : List (Json × Json)
  lastIncidentHashes : List (Json × String)
  firstRun : Bool
  consecutiveErrors : Nat
deriving Repr

/-- Initial OpenAI poller state. -/
def openaiInitialState : OpenAIState := ⟨"", "", "", "", "", "", [], [], true, 0⟩

/-- The component-change forwarding loop (`for name, status in
current.items(): ...`), run only when not on the first cycle.  Returns the
envelopes POSTed (in order) and the exception that aborted the loop, if
any.  A gateway response outside 2xx raises `HTTPStatusError` after the
POST was already sent. -/
def openaiCompLoop (last : List (Json × Json)) (gatewayStatus : Nat) :
    List (Json × Json) → List Json × Option CycleErr
  | [] => ([], none)
  | (name, status) :: rest =>
    match dictGet last name with
    | .error e => ([], some (.pyExc e))
    | .ok old? =>
      let old := old?.getD Json.null
      if pyTruthy old && !Json.beq status old then
        match old with
        | .str oldS =>
          match status with
          | .str statusS =>
            let envelope := Json.obj
              [("provider", Json.str "openai"),
               ("incident_type", Json.str (mapComponentType statusS)),
               ("incident", Json.obj
                 [("title", Json.str (pyStr name ++ " — " ++ fmtStatus statusS)),
                  ("status", status),
                  ("impact", Json.str "component_change"),
                  ("message", Json.str (pyStr name ++ " changed from " ++ fmtStatus oldS
                    ++ " to " ++ fmtStatus statusS ++ ".")),
                  ("components", Json.arr [Json.obj [("name", name), ("status", status)]])])]
            if is2xx gatewayStatus then
              let (fwds, err) := openaiCompLoop last gatewayStatus rest
              (envelope :: fwds, err)
            else
              ([envelope], some (.httpStatusError gatewayStatus))
          | _ => ([], some (.pyExc (.attributeError "replace")))
        | _ => ([], some (.pyExc (.attributeError "replace")))
      else
        openaiCompLoop last gatewayStatus rest

/-- Python `message[:120]` as used by the incident log line: strings and
lists slice, other values raise `TypeError`. -/
def pySlice120 (j : Json) : Except PyErr Json :=
  match j with
  | .str s => .ok (.str (String.mk (s.data.take 120)))
  | .arr xs => .ok (.arr (xs.take 120))
  | _ => .error (.typeError "object is not subscriptable")

/-- The `affected` list comprehension: `[\x7b"name": c.get("name","?"),
"status": c.get("status","?")\x7d for c in inc.get("components", [])]`. -/
def openaiAffected : List Json → Except PyErr (List Json)
  | [] => .ok []
  | c :: rest => do
    let nm ← pyGet c "name" (.str "?")
    let stv ← pyGet c "status" (.str "?")
    let tail ← openaiAffected rest
    pure (Json.obj [("name", nm), ("status", stv)] :: tail)

/-- The incident tracking loop of the incidents section.  Threads the
`current_hashes` dict being built; returns the envelopes POSTed, the final
`current_hashes`, and the exception that aborted the loop, if any. -/
def openaiIncLoop (firstRun : Bool) (lastHashes : List (Json × String)) (gatewayStatus : Nat) :
    List Json → List (Json × String) → List Json × List (Json × String) × Option CycleErr
  | [], cur => ([], cur, none)
  | inc :: rest, cur =>
    match (do
        let incId ← pyGet inc "id" (.str "")
        let incStatus ← pyGet inc "status" (.str "unknown")
        let updatedAt ← pyGet inc "updated_at" (.str "")
        pure (incId, incStatus, updatedAt) : Except PyErr (Json × Json × Json)) with
    | .error e => ([], cur, some (.pyExc e))
    | .ok (incId, incStatus, updatedAt) =>
      if Json.beq incStatus (Json.str "resolved") then
        openaiIncLoop firstRun lastHashes gatewayStatus rest cur
      else
        let contentHash := md5 (pyStr incId ++ ":" ++ pyStr updatedAt)
        match dictSet cur incId contentHash with
        | .error e => ([], cur, some (.pyExc e))
        | .ok cur₂ =>
          if firstRun then
            openaiIncLoop firstRun lastHashes gatewayStatus rest cur₂
          else
            match dictGet lastHashes incId with
            | .error e => ([], cur₂, some (.pyExc e))
            | .ok oldHash? =>
              let incType? : Except PyErr (Option String) :=
                match oldHash? with
                | none => (classifyIncident inc).map some
                | some oldHash =>
                  if oldHash ≠ contentHash then .ok (some "update") else .ok none
              match incType? with
              | .error e => ([], cur₂, some (.pyExc e))
              | .ok none => openaiIncLoop firstRun lastHashes gatewayStatus rest cur₂
              | .ok (some incType) =>
                match (do
                    let updates ← pyGet inc "incident_updates" (.arr [])
                    let message ←
                      if pyTruthy updates then do
                        let u0 ← pyIndex0 updates
                        pyGet u0 "body" (.str "")
                      else pure (Json.str "")
                    let comps ← pyGet inc "components" (.arr [])
                    let compItems ← pyIter comps
                    let affected ← openaiAffected compItems
                    let _ ← pySlice120 message
                    pure (message, affected) : Except PyErr (Json × List Json)) with
                | .error e => ([], cur₂, some (.pyExc e))
                | .ok (message, affected) =>
                  let envelope := Json.obj
                    [("provider", Json.str "openai"),
                     ("incident_type", Json.str incType),
                     ("incident", Json.obj
                       [("title", (match inc with
                          | .obj fs => (Json.lookupField fs "name").getD (.str "Unknown")
                          | _ => .str "Unknown")),
                        ("status", incStatus),
                        ("impact", (match inc with
                          | .obj fs => (Json.lookupField fs "impact").getD (.str "none")
                          | _ => .str "none")),
                        ("message", message),
                        ("components", Json.arr affected)])]
                  if is2xx gatewayStatus then
                    let (fwds, cur₃, err) := openaiIncLoop firstRun lastHashes gatewayStatus rest cur₂
                    (envelope :: fwds, cur₃, err)
                  else
                    ([envelope], cur₂, some (.httpStatusError gatewayStatus))

/-- The fixed envelope forwarded when a tracked incident disappears from
the unresolved set. -/
def openaiResolvedEnvelope : Json :=
  Json.obj
    [("provider", Json.str "openai"),
     ("incident_type", Json.str "resolved"),
     ("incident", Json.obj
       [("title", Json.str "Incident Resolved"),
        ("status", Json.str "resolved"),
        ("impact", Json.str "none"),
        ("message", Json.str "This incident has been resolved."),
        ("components", Json.arr [])])]

/-- The resolved-detection loop: every previously tracked incident id
missing from `current_hashes` triggers one resolved envelope. -/
def openaiResolvedLoop (currentHashes : List (Json × String)) (gatewayStatus : Nat) :
    List Json → List Json × Option CycleErr
  | [] => ([], none)
  | oldId :: rest =>
    if (dictFind currentHashes oldId).isSome then
      openaiResolvedLoop currentHashes gatewayStatus rest
    else if is2xx gatewayStatus then
      let (fwds, err) := openaiResolvedLoop currentHashes gatewayStatus rest
      (openaiResolvedEnvelope :: fwds, err)
    else
      ([openaiResolvedEnvelope], some (.httpStatusError gatewayStatus))

/-- The components half of one `poll_openai_status` cycle (the first `try`
section): conditional tokens, body-hash short-circuit, diff of per-component
statuses, forwarding of changes.  Returns the updated state, the envelopes
POSTed, and the exception that aborted the section, if any. -/
def openaiCompSection (st : OpenAIState) (resp : HttpResponse) (gatewayStatus : Nat) :
    OpenAIState × List Json × Option CycleErr :=
  if resp.status = 304 then (st, [], none)
  else if resp.status = 200 then
    let st₂ := { st with compEtag := resp.etag.getD st.compEtag,
                         compModified := resp.lastModified.getD st.compModified }
    let bodyHash := md5 resp.body
    if bodyHash ≠ st₂.lastCompBodyHash then
      let st₃ := { st₂ with lastCompBodyHash := bodyHash }
      match jsonLoads resp.body with
      | none => (st₃, [], some (.pyExc .jsonDecodeError))
      | some compData =>
        match (do
            let comps ← pyGet compData "components" (.arr [])
            let items ← pyIter comps
            openaiBuildComponents items [] : Except PyErr (List (Json × Json))) with
        | .error e => (st₃, [], some (.pyExc e))
        | .ok current =>
          if !st₃.firstRun then
            match openaiCompLoop st₃.lastComponentStatuses gatewayStatus current with
            | (fwds, some e) => (st₃, fwds, some e)
            | (fwds, none) => ({ st₃ with lastComponentStatuses := current }, fwds, none)
          else
            ({ st₃ with lastComponentStatuses := current }, [], none)
    else (st₂, [], none)
  else (st, [], none)

/-- The incidents half of one `poll_openai_status` cycle (the second `try`
section): conditional tokens, body-hash short-circuit, incident tracking
with per-incident fingerprints, resolved detection. -/
def openaiIncSection (st : OpenAIState) (resp : HttpResponse) (gatewayStatus : Nat) :
    OpenAIState × List Json × Option CycleErr :=
  if resp.status = 304 then (st, [], none)
  else if resp.status = 200 then
    let st₂ := { st with incEtag := resp.etag.getD st.incEtag,
                         incModified := resp.lastModified.getD st.incModified }
    let bodyHash := md5 resp.body
    if bodyHash ≠ st₂.lastIncBodyHash then
      let st₃ := { st₂ with lastIncBodyHash := bodyHash }
      match jsonLoads resp.body with
      | none => (st₃, [], some (.pyExc .jsonDecodeError))
      | some incData =>
        match (do
            let incs ← pyGet incData "incidents" (.arr [])
            pyIter incs : Except PyErr (List Json)) with
        | .error e => (st₃, [], some (.pyExc e))
        | .ok items =>
          match openaiIncLoop st₃.firstRun st₃.lastIncidentHashes gatewayStatus items [] with
          | (fwds, _, some e) => (st₃, fwds, some e)
          | (fwds, currentHashes, none) =>
            if !st₃.firstRun then
              match openaiResolvedLoop currentHashes gatewayStatus
                  (st₃.lastIncidentHashes.map Prod.fst) with
              | (fwds₂, some e) => (st₃, fwds ++ fwds₂, some e)
              | (fwds₂, none) =>
                ({ st₃ with lastIncidentHashes := currentHashes }, fwds ++ fwds₂, none)
            else
              ({ st₃ with lastIncidentHashes := currentHashes }, fwds, none)
    else (st₂, [], none)
  else (st, [], none)

/-- One cycle of `poll_openai_status`: components GET and section, then
incidents GET and section, then `first_run = False` and the error counter
reset; an exception anywhere jumps to the handlers, which increment the
counter.  `gComp`/`gInc` are the two GET outcomes, `gatewayStatus` the HTTP
status the gateway answers to each forward. -/
def openaiCycle (st₀ : OpenAIState) (gComp gInc : GetOutcome) (gatewayStatus : Nat) :
    CycleResult Json OpenAIState :=
  let tryResult : OpenAIState × List Json × Option CycleErr :=
    match gComp with
    | .connectError => (st₀, [], some .connectError)
    | .timeout => (st₀, [], some .timeoutError)
    | .ok compResp =>
      match openaiCompSection st₀ compResp gatewayStatus with
      | (st₁, fwds₁, some e) => (st₁, fwds₁, some e)
      | (st₁, fwds₁, none) =>
        match gInc with
        | .connectError => (st₁, fwds₁, some .connectError)
        | .timeout => (st₁, fwds₁, some .timeoutError)
        | .ok incResp =>
          match openaiIncSection st₁ incResp gatewayStatus with
          | (st₂, fwds₂, err) => (st₂, fwds₁ ++ fwds₂, err)
  match tryResult with
  | (st, fwds, none) =>
    let st₂ := { st with firstRun := false, consecutiveErrors := 0 }
    ⟨st₂, fwds, decide (MAX_CONSECUTIVE_ERRORS ≤ st₂.consecutiveErrors)⟩
  | (st, fwds, some _) =>
    let st₂ := { st with consecutiveErrors := st.consecutiveErrors + 1 }
    ⟨st₂, fwds, decide (MAX_CONSECUTIVE_ERRORS ≤ st₂.consecutiveErrors)⟩

/-! Projections and concrete fixtures used by the verification statements. -/

/-- The timestamp-independent part of a `NormalizedEvent`. -/
def eventCore (e : NormalizedEvent) : String × String × String × Json :=
  (e.product, e.status, e.provider, e.raw)

/-- An incident dict with string `impact`, `name` (title) and `status`
fields, the shape the OpenAI status feed delivers. -/
def incidentOf (impact name status : String) : Json :=
  Json.obj [("impact", Json.str impact), ("name", Json.str name), ("status", Json.str status)]

/-- A Discord status payload with an empty incident list and a page-level
indicator/description.  The description may be any JSON value, as the
source renders it through an f-string. -/
def discordPagePayload (pageName indicator : String) (description : Json) : Json :=
  Json.obj
    [("page", Json.obj [("name", Json.str pageName)]),
     ("status", Json.obj [("indicator", Json.str indicator),
       ("description", description)]),
     ("incidents", Json.arr [])]

/-- The incident envelope the OpenAI poller marks with an `incident_type`
whose single listed component lacks a `name` key. -/
def c1FailingPayload : Json :=
  Json.obj [("incident_type", Json.str "update"),
    ("incident", Json.obj [("components", Json.arr [Json.obj []])])]

/-! Verification of the specification claims. -/

/-- C1: the specification requires every adapter's `parse` to return
normally with non-empty `product` and `status` for every dict payload, but
`OpenAIAdapter.parse` evaluates `comps[0]['name']` by direct subscription,
so a structured envelope whose single component lacks a `name` key makes
the parse raise `KeyError` instead of degrading to a fallback string. -/
theorem C1_openai_parse_raises_keyerror :
    openaiParse c1FailingPayload "2026-10-12 00:00:00" = .error (.keyError "name") := by
  rfl

/-- C6: a POST body that does not decode as JSON is rejected with HTTP 400
and the queue is left unchanged; every decodable body is enqueued as a
queue item carrying the lower-cased provider key and the parsed payload,
and answered with HTTP 202, whatever the provider key is. -/
theorem C6_ingestion_boundary :
    ∀ (providerName body : String) (queue : List Json),
      (jsonLoads body = none → receive_webhook providerName body queue = (400, queue)) ∧
      (∀ payload, jsonLoads body = some payload →
        receive_webhook providerName body queue =
          (202, queue ++ [Json.obj [("provider", Json.str (strLower providerName)),
            ("payload", payload)]])) := by
  intro providerName body queue
  constructor
  · intro h
    simp [receive_webhook, h]
  · intro payload h
    simp [receive_webhook, h, mkQueueItem]

/-- C6 witness: a malformed body is rejected with the queue untouched and a
decodable body is enqueued and accepted, instantiated at concrete inputs. -/
theorem C6_ingestion_boundary_witness :
    receive_webhook "OpenAI" "nope" [] = (400, []) ∧
    receive_webhook "OpenAI" "\x7b\x7d" [Json.null] =
      (202, [Json.null, Json.obj [("provider", Json.str "openai"),
        ("payload", Json.obj [])]]) :=
  ⟨(C6_ingestion_boundary "OpenAI" "nope" []).1 (by rfl),
   (C6_ingestion_boundary "OpenAI" "\x7b\x7d" [Json.null]).2 (Json.obj []) (by rfl)⟩

/-- C9: the Worker lower-cases the provider key before the registry lookup,
so a mixed-case key dispatches identically to its lower-case form, and an
item with no provider key at all is processed as provider `unknown`, which
has no registered adapter and is dropped. -/
theorem C9_worker_dispatch_case :
    ∀ (payload : Json) (now : String),
      processItem (Json.obj [("provider", Json.str "OpenAI"), ("payload", payload)]) now =
        processItem (Json.obj [("provider", Json.str "openai"), ("payload", payload)]) now ∧
      processItem (Json.obj [("payload", payload)]) now = .ok (.dropped "unknown") ∧
      workerStep (Json.obj []) now = .droppedNoAdapter "unknown" := by
  intro payload now
  exact ⟨rfl, rfl, rfl⟩

/-- C8 counterexample: for the unmapped indicator `major_outage` the code
renders `str.capitalize` (rest of the string lower-cased), not the
title-case the claim states (`Major_Outage`). -/
theorem C8_counterexample :
    discordParse (discordPagePayload "Discord" "major_outage" (Json.str "desc")) "t" =
      .ok ⟨"Discord Platform", "Major_outage - desc", "t", "discord",
        discordPagePayload "Discord" "major_outage" (Json.str "desc")⟩ ∧
    "Major_outage - desc" ≠ pyTitle "major_outage" ++ " - " ++ "desc" :=
  ⟨by rfl, by decide⟩

/-- C8 (amended): for a payload with an empty incident list, the status is
the page indicator mapped through the fixed table (none→Operational,
minor→Degraded Performance, major→Partial Outage, critical→Major Outage);
an unmapped indicator is rendered with `str.capitalize` (first character
upper-cased, the rest lower-cased), concatenated with ` - ` and the
`str()` rendering of the page description.  When the status object is
absent altogether, the defaults give `Operational - All Systems
Operational`. -/
theorem C8_discord_indicator_fallback :
    (∀ (pageName indicator : String) (description : Json) (now : String),
      discordParse (discordPagePayload pageName indicator description) now =
        .ok ⟨pageName ++ " Platform",
          ((lookupStr INDICATOR_MAP indicator).getD (pyCapitalize indicator))
            ++ " - " ++ pyStr description,
          now, "discord", discordPagePayload pageName indicator description⟩) ∧
    (∀ now : String,
      discordParse (Json.obj [("incidents", Json.arr [])]) now =
        .ok ⟨"Discord Platform", "Operational - All Systems Operational", now,
          "discord", Json.obj [("incidents", Json.arr [])]⟩) ∧
    lookupStr INDICATOR_MAP "none" = some "Operational" ∧
    lookupStr INDICATOR_MAP "minor" = some "Degraded Performance" ∧
    lookupStr INDICATOR_MAP "major" = some "Partial Outage" ∧
    lookupStr INDICATOR_MAP "critical" = some "Major Outage" := by
  refine ⟨?_, ?_, rfl, rfl, rfl, rfl⟩
  · intro pageName indicator description now
    simp [discordParse, discordPagePayload, pyGet, Json.lookupField, pyTruthy, pyStr,
      mkNormalizedEvent, Except.bind, bind, pure, Except.pure]
  · intro now
    rfl

/-- C4 counterexample: an incident with impact `major` whose title contains
the keyword `outage` is classified `outage`, not `degradation` as the
claim states — the code tests critical impact and outage keywords together
in its first branch, before ever looking at `major`. -/
theorem C4_counterexample :
    classifyIncident (incidentOf "major" "API outage" "investigating") = .ok "outage" ∧
    ("outage" : String) ≠ "degradation" :=
  ⟨by rfl, by decide⟩

/-- C4 (amended): a lower-cased status `resolved` is classified `resolved`
first; otherwise critical impact or an outage keyword in the lower-cased
title (`outage`, `down`, `unavailable`) gives `outage`; otherwise major
impact or a degradation keyword (`degraded`, `error`, `latency`) gives
`degradation`; otherwise `new_incident`.  Impact and keywords are tested
together at each tier, so major impact with an outage keyword is an
`outage`. -/
theorem C4_classification_order :
    ∀ (impact name status : String),
      (strLower status = "resolved" →
        classifyIncident (incidentOf impact name status) = .ok "resolved") ∧
      (strLower status ≠ "resolved" →
        (strLower impact = "critical" ∨
          (["outage", "down", "unavailable"].any
            (fun kw => pyStrContains (strLower name) kw)) = true) →
        classifyIncident (incidentOf impact name status) = .ok "outage") ∧
      (strLower status ≠ "resolved" → strLower impact ≠ "critical" →
        (["outage", "down", "unavailable"].any
          (fun kw => pyStrContains (strLower name) kw)) = false →
        (strLower impact = "major" ∨
          (["degraded", "error", "latency"].any
            (fun kw => pyStrContains (strLower name) kw)) = true) →
        classifyIncident (incidentOf impact name status) = .ok "degradation") ∧
      (strLower status ≠ "resolved" → strLower impact ≠ "critical" →
        strLower impact ≠ "major" →
        (["outage", "down", "unavailable"].any
          (fun kw => pyStrContains (strLower name) kw)) = false →
        (["degraded", "error", "latency"].any
          (fun kw => pyStrContains (strLower name) kw)) = false →
        classifyIncident (incidentOf impact name status) = .ok "new_incident") := by
  intro impact name status
  simp only [classifyIncident, incidentOf, pyGet, Json.lookupField, pyLower, Except.bind, bind,
    pure, Except.pure]
  norm_num
  refine ⟨?ga, ?gb, ?gc, ?gd⟩
  · intro h
    simp [h]
  · intro h₁ h₂
    split_ifs <;> simp_all
  · intro h₁ h₂ h₃ h₄
    split_ifs <;> simp_all
  · intro h₁ h₂ h₃ h₄ h₅
    split_ifs <;> simp_all

/-- C4 witness: the amended classification applied at concrete incidents —
major impact with an outage keyword is an outage, and major impact without
keywords is a degradation. -/
theorem C4_classification_order_witness :
    classifyIncident (incidentOf "major" "API outage" "investigating") = .ok "outage" ∧
    classifyIncident (incidentOf "major" "slow responses" "investigating") =
      .ok "degradation" :=
 by
  have d₁ : strLower "investigating" ≠ "resolved" := by decide
  have d₂ : (["outage", "down", "unavailable"].any
      (fun kw => pyStrContains (strLower "API outage") kw)) = true := by decide
  have d₃ : strLower "major" ≠ "critical" := by decide
  have d₄ : (["outage", "down", "unavailable"].any
      (fun kw => pyStrContains (strLower "slow responses") kw)) = false := by decide
  have d₅ : strLower "major" = "major" := by decide
  refine ⟨(C4_classification_order "major" "API outage" "investigating").2.1 d₁ (Or.inr d₂),
    (C4_classification_order "major" "slow responses" "investigating").2.2.1 d₁ d₃ d₄
      (Or.inl d₅)⟩

/-- C7: the Worker loop consumes every dequeued item exactly once whatever
each item does — an unknown provider is dropped with a warning, a raised
exception is caught and logged — so no single item stops the loop from
reaching the items after it. -/
theorem C7_worker_never_stops :
    ∀ (pre : List Json) (item : Json) (post : List Json) (now : String),
      start_worker (pre ++ item :: post) now =
        start_worker pre now ++ workerStep item now :: start_worker post now ∧
      (∀ p, processItem item now = .ok (.dropped p) →
        workerStep item now = .droppedNoAdapter p) ∧
      (∀ e, processItem item now = .error e → workerStep item now = .caughtException e) := by
  intro pre item post now
  refine ⟨?_, ?_, ?_⟩
  · induction pre with
    | nil => rfl
    | cons x xs ih => simp [start_worker, ih]
  · intro p h
    simp [workerStep, h]
  · intro e h
    simp [workerStep, h]

/-- C7 witness: a queue holding an unknown-provider item, an item whose
parse raises `KeyError`, and an empty item is fully consumed, with the bad
items dropped or caught. -/
theorem C7_worker_never_stops_witness :
    start_worker ([Json.obj [("provider", Json.str "slack")]] ++
        Json.obj [("provider", Json.str "openai"), ("payload", c1FailingPayload)] ::
        [Json.obj []]) "t" =
      start_worker [Json.obj [("provider", Json.str "slack")]] "t" ++
        workerStep (Json.obj [("provider", Json.str "openai"),
          ("payload", c1FailingPayload)]) "t" ::
        start_worker [Json.obj []] "t" ∧
    workerStep (Json.obj [("provider", Json.str "slack")]) "t" =
      .droppedNoAdapter "slack" ∧
    workerStep (Json.obj [("provider", Json.str "openai"),
      ("payload", c1FailingPayload)]) "t" = .caughtException (.keyError "name") :=
  ⟨(C7_worker_never_stops [Json.obj [("provider", Json.str "slack")]]
      (Json.obj [("provider", Json.str "openai"), ("payload", c1FailingPayload)])
      [Json.obj []] "t").1,
   (C7_worker_never_stops [] (Json.obj [("provider", Json.str "slack")]) [] "t").2.1
      "slack" (by rfl),
   (C7_worker_never_stops [] (Json.obj [("provider", Json.str "openai"),
      ("payload", c1FailingPayload)]) [] "t").2.2 (.keyError "name") (by rfl)⟩

/-- Constructing a `NormalizedEvent` at two different clock readings gives
the same result up to the timestamp field. -/
theorem mkNormalizedEvent_core (product status : Json) (provider : String) (raw : Json)
    (t₁ t₂ : String) :
    (mkNormalizedEvent product status provider raw t₁).map eventCore =
      (mkNormalizedEvent product status provider raw t₂).map eventCore := by
  unfold mkNormalizedEvent
  cases product <;> cases status <;> cases raw <;> rfl

/-- Congruence for `Except` bind under the timestamp-erasing projection:
if two continuations agree up to the timestamp on every value, so do the
bound computations. -/
theorem bindCore {α : Type} (x : Except PyErr α) (f g : α → Except PyErr NormalizedEvent)
    (h : ∀ a, (f a).map eventCore = (g a).map eventCore) :
    (x >>= f).map eventCore = (x >>= g).map eventCore := by
  cases x
  case error => rfl
  case ok a => exact h a

/-- `AppleAdapter.parse` applied at two clock readings agrees up to the
timestamp. -/
theorem appleParse_core (p : Json) (t₁ t₂ : String) :
    (appleParse p t₁).map eventCore = (appleParse p t₂).map eventCore := by
  unfold appleParse
  refine bindCore _ _ _ fun data => ?_
  split
  · exact mkNormalizedEvent_core _ _ _ _ _ _
  · refine bindCore _ _ _ fun services => ?_
    refine bindCore _ _ _ fun svcList => ?_
    refine bindCore _ _ _ fun issues => ?_
    split
    · refine bindCore _ _ _ fun summaries => ?_
      exact mkNormalizedEvent_core _ _ _ _ _ _
    · exact mkNormalizedEvent_core _ _ _ _ _ _

/-- `DiscordAdapter.parse` applied at two clock readings agrees up to the
timestamp. -/
theorem discordParse_core (p : Json) (t₁ t₂ : String) :
    (discordParse p t₁).map eventCore = (discordParse p t₂).map eventCore := by
  unfold discordParse
  dsimp only
  refine bindCore _ _ _ fun page => ?_
  refine bindCore _ _ _ fun pageName => ?_
  refine bindCore _ _ _ fun incidents => ?_
  split
  · refine bindCore _ _ _ fun activeIncident => ?_
    refine bindCore _ _ _ fun componentName => ?_
    refine bindCore _ _ _ fun updates => ?_
    split
    · refine bindCore _ _ _ fun u0 => ?_
      refine bindCore _ _ _ fun y => ?_
      exact mkNormalizedEvent_core _ _ _ _ _ _
    · refine bindCore _ _ _ fun y => ?_
      exact mkNormalizedEvent_core _ _ _ _ _ _
  · refine bindCore _ _ _ fun statusObj => ?_
    refine bindCore _ _ _ fun indicator => ?_
    refine bindCore _ _ _ fun description => ?_
    cases indicator <;>
      first
        | rfl
        | exact mkNormalizedEvent_core _ _ _ _ _ _

/-- `OpenAIAdapter.parse` applied at two clock readings agrees up to the
timestamp. -/
theorem openaiParse_core (p : Json) (t₁ t₂ : String) :
    (openaiParse p t₁).map eventCore = (openaiParse p t₂).map eventCore := by
  unfold openaiParse
  dsimp only
  refine bindCore _ _ _ fun hasType => ?_
  split
  · refine bindCore _ _ _ fun inc => ?_
    refine bindCore _ _ _ fun incTypeJ => ?_
    refine bindCore _ _ _ fun incType => ?_
    refine bindCore _ _ _ fun comps => ?_
    refine bindCore _ _ _ fun compsLen => ?_
    split
    · refine bindCore _ _ _ fun c0 => ?_
      refine bindCore _ _ _ fun nm => ?_
      refine bindCore _ _ _ fun y => ?_
      refine bindCore _ _ _ fun statusJ => ?_
      refine bindCore _ _ _ fun statusRep => ?_
      refine bindCore _ _ _ fun messageJ => ?_
      split
      · refine bindCore _ _ _ fun z => ?_
        exact mkNormalizedEvent_core _ _ _ _ _ _
      · refine bindCore _ _ _ fun z => ?_
        exact mkNormalizedEvent_core _ _ _ _ _ _
    · split
      · refine bindCore _ _ _ fun y => ?_
        refine bindCore _ _ _ fun statusJ => ?_
        refine bindCore _ _ _ fun statusRep => ?_
        refine bindCore _ _ _ fun messageJ => ?_
        split
        · refine bindCore _ _ _ fun z => ?_
          exact mkNormalizedEvent_core _ _ _ _ _ _
        · refine bindCore _ _ _ fun z => ?_
          exact mkNormalizedEvent_core _ _ _ _ _ _
      · refine bindCore _ _ _ fun y => ?_
        refine bindCore _ _ _ fun statusJ => ?_
        refine bindCore _ _ _ fun statusRep => ?_
        refine bindCore _ _ _ fun messageJ => ?_
        split
        · refine bindCore _ _ _ fun z => ?_
          exact mkNormalizedEvent_core _ _ _ _ _ _
        · refine bindCore _ _ _ fun z => ?_
          exact mkNormalizedEvent_core _ _ _ _ _ _
  · refine bindCore _ _ _ fun page => ?_
    refine bindCore _ _ _ fun pageName => ?_
    refine bindCore _ _ _ fun component => ?_
    refine bindCore _ _ _ fun compName => ?_
    refine bindCore _ _ _ fun inc => ?_
    refine bindCore _ _ _ fun body => ?_
    split
    · exact mkNormalizedEvent_core _ _ _ _ _ _
    · refine bindCore _ _ _ fun nm => ?_
      split
      · exact mkNormalizedEvent_core _ _ _ _ _ _
      · exact mkNormalizedEvent_core _ _ _ _ _ _

/-- C10: every adapter's parse is deterministic up to the timestamp — two
successful parses of equal payloads agree on `product`, `status`,
`provider` and `raw`; only the construction-time timestamp differs. -/
theorem C10_parse_deterministic :
    ∀ (a : Adapter) (p : Json) (t₁ t₂ : String) (e₁ e₂ : NormalizedEvent),
      a.parse p t₁ = .ok e₁ → a.parse p t₂ = .ok e₂ →
      e₁.product = e₂.product ∧ e₁.status = e₂.status ∧
      e₁.provider = e₂.provider ∧ e₁.raw = e₂.raw := by
  intro a p t₁ t₂ e₁ e₂ h₁ h₂
  have hc : (a.parse p t₁).map eventCore = (a.parse p t₂).map eventCore := by
    cases a
    · exact openaiParse_core p t₁ t₂
    · exact discordParse_core p t₁ t₂
    · exact appleParse_core p t₁ t₂
  rw [h₁, h₂] at hc
  simp only [Except.map] at hc
  have hcore := Except.ok.inj hc
  simp only [eventCore, Prod.mk.injEq] at hcore
  exact ⟨hcore.1, hcore.2.1, hcore.2.2.1, hcore.2.2.2⟩

/-- C10 witness: the Discord adapter parsed at two clock readings yields
events differing only in the timestamp. -/
theorem C10_parse_deterministic_witness :
    Adapter.parse .discord (Json.obj []) "08:00" =
      .ok ⟨"Discord Platform", "Operational - All Systems Operational", "08:00",
        "discord", Json.obj []⟩ ∧
    (⟨"Discord Platform", "Operational - All Systems Operational", "08:00",
        "discord", Json.obj []⟩ : NormalizedEvent).product =
      (⟨"Discord Platform", "Operational - All Systems Operational", "09:00",
        "discord", Json.obj []⟩ : NormalizedEvent).product ∧
    (⟨"Discord Platform", "Operational - All Systems Operational", "08:00",
        "discord", Json.obj []⟩ : NormalizedEvent).status =
      (⟨"Discord Platform", "Operational - All Systems Operational", "09:00",
        "discord", Json.obj []⟩ : NormalizedEvent).status :=
  ⟨by rfl,
   ((C10_parse_deterministic .discord (Json.obj []) "08:00" "09:00"
      ⟨"Discord Platform", "Operational - All Systems Operational", "08:00",
        "discord", Json.obj []⟩
      ⟨"Discord Platform", "Operational - All Systems Operational", "09:00",
        "discord", Json.obj []⟩ (by rfl) (by rfl))).1,
   ((C10_parse_deterministic .discord (Json.obj []) "08:00" "09:00"
      ⟨"Discord Platform", "Operational - All Systems Operational", "08:00",
        "discord", Json.obj []⟩
      ⟨"Discord Platform", "Operational - All Systems Operational", "09:00",
        "discord", Json.obj []⟩ (by rfl) (by rfl))).2.1⟩

/-- Helper: every branch of a Discord cycle sets `exited` to the comparison
of the threshold against the updated error counter. -/
theorem discordCycle_exited (dst : DiscordState) (g : GetOutcome) (gw : Nat) :
    (discordCycle dst g gw).exited =
      decide (MAX_CONSECUTIVE_ERRORS ≤ (discordCycle dst g gw).state.consecutiveErrors) := by
  unfold discordCycle
  dsimp only
  cases g with
  | connectError => rfl
  | timeout => rfl
  | ok resp =>
    dsimp only
    repeat' split
    all_goals rfl

/-- Helper: every branch of an Apple cycle sets `exited` to the comparison
of the threshold against the updated error counter. -/
theorem appleCycle_exited (ast : AppleState) (g : GetOutcome) (gw : Nat) :
    (appleCycle ast g gw).exited =
      decide (MAX_CONSECUTIVE_ERRORS ≤ (appleCycle ast g gw).state.consecutiveErrors) := by
  unfold appleCycle
  dsimp only
  cases g with
  | connectError => rfl
  | timeout => rfl
  | ok resp =>
    dsimp only
    repeat' split
    all_goals rfl

/-- Helper: every branch of an OpenAI cycle sets `exited` to the comparison
of the threshold against the updated error counter. -/
theorem openaiCycle_exited (ost : OpenAIState) (g₁ g₂ : GetOutcome) (gw : Nat) :
    (openaiCycle ost g₁ g₂ gw).exited =
      decide (MAX_CONSECUTIVE_ERRORS ≤ (openaiCycle ost g₁ g₂ gw).state.consecutiveErrors) := by
  unfold openaiCycle
  dsimp only
  split <;> rfl

/-- C5 counterexample: an HTTP 500 answer to the Discord poll GET does not
increment the consecutive-error counter as the claim states — the cycle
logs, skips, and resets the counter to 0. -/
theorem C5_counterexample :
    (discordCycle ⟨"", "", 3⟩ (.ok ⟨500, none, none, "x"⟩) 202).state.consecutiveErrors = 0 ∧
    (0 : Nat) ≠ 3 + 1 :=
  ⟨by rfl, by decide⟩

/-- C5 (amended): connect failures, timeouts and unexpected/parse errors
increment the shared consecutive-error counter in every poller, and a
non-2xx response increments it wherever `raise_for_status` runs (the Apple
GET and every gateway forward); but a non-2xx, non-304 response to the
Discord or OpenAI poll GET is skipped and the cycle counts as successful,
resetting the counter to 0.  Successful cycles reset the counter, and a
poller exits exactly when the updated counter reaches the threshold 5. -/
theorem C5_error_counter :
    ∀ (dst : DiscordState) (ast : AppleState) (ost : OpenAIState)
      (g g₁ g₂ : GetOutcome) (gw : Nat),
      (discordCycle dst .connectError gw).state.consecutiveErrors =
        dst.consecutiveErrors + 1 ∧
      (discordCycle dst .timeout gw).state.consecutiveErrors = dst.consecutiveErrors + 1 ∧
      (appleCycle ast .connectError gw).state.consecutiveErrors =
        ast.consecutiveErrors + 1 ∧
      (appleCycle ast .timeout gw).state.consecutiveErrors = ast.consecutiveErrors + 1 ∧
      (openaiCycle ost .connectError g gw).state.consecutiveErrors =
        ost.consecutiveErrors + 1 ∧
      (openaiCycle ost .timeout g gw).state.consecutiveErrors = ost.consecutiveErrors + 1 ∧
      (discordCycle dst (.ok ⟨200, none, none, "oops"⟩) gw).state.consecutiveErrors =
        dst.consecutiveErrors + 1 ∧
      (openaiCycle openaiInitialState (.ok ⟨200, none, none, "oops"⟩)
        (.ok ⟨200, none, none, "oops"⟩) 202).state.consecutiveErrors = 1 ∧
      (appleCycle ast (.ok ⟨404, none, none, "b"⟩) gw).state.consecutiveErrors =
        ast.consecutiveErrors + 1 ∧
      (appleCycle appleInitialState (.ok ⟨200, none, none, "b"⟩)
        500).state.consecutiveErrors = 1 ∧
      (discordCycle dst (.ok ⟨200, none, none, "\x7b\x7d"⟩) 500).state.consecutiveErrors =
        dst.consecutiveErrors + 1 ∧
      (discordCycle dst (.ok ⟨500, none, none, "b"⟩) gw).state.consecutiveErrors = 0 ∧
      (openaiCycle ost (.ok ⟨500, none, none, "b"⟩) (.ok ⟨304, none, none, "b"⟩)
        gw).state.consecutiveErrors = 0 ∧
      (discordCycle dst (.ok ⟨304, none, none, "b"⟩) gw).state.consecutiveErrors = 0 ∧
      (appleCycle ast (.ok ⟨200, none, none, "b"⟩) 202).state.consecutiveErrors = 0 ∧
      (openaiCycle ost (.ok ⟨304, none, none, "b"⟩) (.ok ⟨304, none, none, "b"⟩)
        gw).state.consecutiveErrors = 0 ∧
      (discordCycle dst g gw).exited =
        decide (MAX_CONSECUTIVE_ERRORS ≤ (discordCycle dst g gw).state.consecutiveErrors) ∧
      (appleCycle ast g gw).exited =
        decide (MAX_CONSECUTIVE_ERRORS ≤ (appleCycle ast g gw).state.consecutiveErrors) ∧
      (openaiCycle ost g₁ g₂ gw).exited =
        decide (MAX_CONSECUTIVE_ERRORS ≤
          (openaiCycle ost g₁ g₂ gw).state.consecutiveErrors) := by
  intro dst ast ost g g₁ g₂ gw
  repeat' apply And.intro
  all_goals
    first
      | rfl
      | exact discordCycle_exited dst g gw
      | exact appleCycle_exited ast g gw
      | exact openaiCycle_exited ost g₁ g₂ gw
      | (unfold appleCycle
         dsimp only
         repeat' split
         all_goals first | rfl | simp_all [is2xx])

/-- Helper: on the first run the incident loop records fingerprints but
forwards nothing (every incident hits the `continue` under `first_run`). -/
theorem openaiIncLoop_firstRun (lastHashes : List (Json × String)) (gw : Nat) :
    ∀ (items : List Json) (cur : List (Json × String)),
      (openaiIncLoop true lastHashes gw items cur).1 = [] := by
  intro items
  induction items with
  | nil => intro cur; rfl
  | cons inc rest ih =>
    intro cur
    show (match (do
        let incId ← pyGet inc "id" (Json.str "")
        let incStatus ← pyGet inc "status" (Json.str "unknown")
        let updatedAt ← pyGet inc "updated_at" (Json.str "")
        pure (incId, incStatus, updatedAt) : Except PyErr (Json × Json × Json)) with
      | .error e => (([], cur, some (.pyExc e)) : List Json × List (Json × String) × Option CycleErr)
      | .ok (incId, incStatus, updatedAt) =>
        if Json.beq incStatus (Json.str "resolved") then
          openaiIncLoop true lastHashes gw rest cur
        else
          let contentHash := md5 (pyStr incId ++ ":" ++ pyStr updatedAt)
          match dictSet cur incId contentHash with
          | .error e => ([], cur, some (.pyExc e))
          | .ok cur₂ => openaiIncLoop true lastHashes gw rest cur₂).1 = []
    split
    · rfl
    · split
      · exact ih cur
      · dsimp only
        split
        · rfl
        · exact ih _

theorem openaiCompSection_firstRun (st : OpenAIState) (resp : HttpResponse) (gw : Nat)
    (h : st.firstRun = true) :
    (openaiCompSection st resp gw).2.1 = [] := by
  unfold openaiCompSection
  dsimp only
  repeat' split
  all_goals simp_all

theorem openaiIncSection_firstRun (st : OpenAIState) (resp : HttpResponse) (gw : Nat)
    (h : st.firstRun = true) :
    (openaiIncSection st resp gw).2.1 = [] := by
  unfold openaiIncSection
  dsimp only
  split
  · rfl
  · split
    · split
      · split
        · rfl
        · split
          · rfl
          · rename_i items heqItems
            split
            · rename_i fwds cur err heq
              have h₂ : openaiIncLoop true st.lastIncidentHashes gw items [] =
                  (fwds, cur, some err) := by
                rw [← h]; exact heq
              have h₃ := openaiIncLoop_firstRun st.lastIncidentHashes gw items []
              rw [h₂] at h₃
              simp_all
            · rename_i fwds cur heq
              have h₂ : openaiIncLoop true st.lastIncidentHashes gw items [] =
                  (fwds, cur, none) := by
                rw [← h]; exact heq
              have h₃ := openaiIncLoop_firstRun st.lastIncidentHashes gw items []
              rw [h₂] at h₃
              simp_all
      · rfl
    · rfl

theorem openaiCompSection_keeps_firstRun (st : OpenAIState) (resp : HttpResponse) (gw : Nat) :
    ((openaiCompSection st resp gw).1).firstRun = st.firstRun := by
  unfold openaiCompSection
  dsimp only
  repeat' split
  all_goals rfl

theorem openaiCycle_firstRun_noForward (st : OpenAIState) (g₁ g₂ : GetOutcome) (gw : Nat)
    (h : st.firstRun = true) :
    (openaiCycle st g₁ g₂ gw).forwards = [] := by
  unfold openaiCycle
  dsimp only
  cases g₁ with
  | connectError => rfl
  | timeout => rfl
  | ok compResp =>
    dsimp only
    rcases heqC : openaiCompSection st compResp gw with ⟨st₁, fwds₁, errC⟩
    have hf₁ : fwds₁ = [] := by
      have h₂ := openaiCompSection_firstRun st compResp gw h
      rw [heqC] at h₂
      exact h₂
    have hfr₁ : st₁.firstRun = true := by
      have h₂ := openaiCompSection_keeps_firstRun st compResp gw
      rw [heqC] at h₂
      rw [h₂, h]
    cases errC with
    | some e => simpa using hf₁
    | none =>
      cases g₂ with
      | connectError => simpa using hf₁
      | timeout => simpa using hf₁
      | ok incResp =>
        dsimp only
        rcases heqI : openaiIncSection st₁ incResp gw with ⟨st₂, fwds₂, errI⟩
        have hf₂ : fwds₂ = [] := by
          have h₂ := openaiIncSection_firstRun st₁ incResp gw hfr₁
          rw [heqI] at h₂
          exact h₂
        cases errI with
        | some e => simp [hf₁, hf₂]
        | none => simp [hf₁, hf₂]

theorem md5_ne_empty (s : String) : md5 s ≠ "" := by
  intro hEq
  have h₂ := congrArg String.data hEq
  simp [md5] at h₂

theorem appleCycle_first_forwards (resp : HttpResponse) (gw : Nat)
    (h : is2xx resp.status = true) :
    (appleCycle appleInitialState (.ok resp) gw).forwards =
      [Json.obj [("provider", Json.str "apple"),
        ("data", (appleExtractJson resp.body).getD Json.null)]] := by
  unfold appleCycle appleInitialState
  dsimp only
  rw [if_pos h, if_neg (md5_ne_empty resp.body)]
  split <;> rfl

/-- C3 counterexample: both the Apple scraper and the Discord poller
forward an envelope on their very first successful cycle (the claim says no
poller does): each first 200 cycle from the initial state produces exactly
one forward instead of none. -/
theorem C3_counterexample :
    (appleCycle appleInitialState (.ok ⟨200, none, none, "\x7b\x7d"⟩)
      202).forwards.length = 1 ∧
    (discordCycle discordInitialState (.ok ⟨200, none, none, "\x7b\x7d"⟩)
      202).forwards.length = 1 ∧
    (1 : Nat) ≠ 0 :=
  ⟨rfl, rfl, by decide⟩

/-- C3 (amended): only the OpenAI poller suppresses forwarding on its first
successful cycle (its `first_run` flag seeds state silently, whatever the
fetched bodies hold); the Apple scraper forwards its envelope on every
first successful cycle because the initial empty hash never matches a real
digest, and the Discord poller forwards the raw body on every 200 response
including the first. -/
theorem C3_first_cycle_suppression :
    (∀ (st : OpenAIState) (g₁ g₂ : GetOutcome) (gw : Nat), st.firstRun = true →
      (openaiCycle st g₁ g₂ gw).forwards = []) ∧
    (∀ (resp : HttpResponse) (gw : Nat), is2xx resp.status = true →
      (appleCycle appleInitialState (.ok resp) gw).forwards =
        [Json.obj [("provider", Json.str "apple"),
          ("data", (appleExtractJson resp.body).getD Json.null)]]) ∧
    (∀ (dst : DiscordState) (e m : Option String),
      (discordCycle dst (.ok ⟨200, e, m, "\x7b\x7d"⟩) 202).forwards = ["\x7b\x7d"] ∧
      (discordCycle dst (.ok ⟨200, e, m, "\x7b\x7d"⟩) 500).forwards = ["\x7b\x7d"]) :=
  ⟨openaiCycle_firstRun_noForward, appleCycle_first_forwards,
   fun _ _ _ => ⟨rfl, rfl⟩⟩

/-- C3 witness: the OpenAI poller started from its initial (first-run)
state forwards nothing on a 200/200 first cycle, while the Apple scraper
forwards its envelope from the same cold start. -/
theorem C3_first_cycle_suppression_witness :
    openaiInitialState.firstRun = true ∧
    (openaiCycle openaiInitialState (.ok ⟨200, none, none, "\x7b\x7d"⟩)
      (.ok ⟨200, none, none, "\x7b\x7d"⟩) 202).forwards = [] ∧
    is2xx 200 = true ∧
    (appleCycle appleInitialState (.ok ⟨200, none, none, "x"⟩) 202).forwards =
      [Json.obj [("provider", Json.str "apple"), ("data", Json.null)]] :=
  ⟨rfl,
   C3_first_cycle_suppression.1 openaiInitialState (.ok ⟨200, none, none, "\x7b\x7d"⟩)
     (.ok ⟨200, none, none, "\x7b\x7d"⟩) 202 rfl,
   rfl,
   C3_first_cycle_suppression.2.1 ⟨200, none, none, "x"⟩ 202 rfl⟩

/-- Helper: after any cycle that received a 200, the Apple scraper has the
body digest cached (it is recorded before the forward is attempted). -/
theorem appleCycle_lastHash (ast : AppleState) (resp : HttpResponse) (gw : Nat)
    (h : resp.status = 200) :
    ((appleCycle ast (.ok resp) gw).state).lastHash = md5 resp.body := by
  have h₂ : is2xx resp.status = true := by rw [h]; rfl
  unfold appleCycle
  dsimp only
  rw [if_pos h₂]
  split
  · rename_i heq
    exact heq.symm
  · split <;> rfl

theorem appleCycle_skip (ast : AppleState) (resp : HttpResponse) (gw : Nat)
    (h : resp.status = 200) (hh : md5 resp.body = ast.lastHash) :
    (appleCycle ast (.ok resp) gw).forwards = [] ∧
    (appleCycle ast (.ok resp) gw).state = { ast with consecutiveErrors := 0 } := by
  have h₂ : is2xx resp.status = true := by rw [h]; rfl
  unfold appleCycle
  dsimp only
  rw [if_pos h₂, if_pos hh]
  exact ⟨rfl, rfl⟩

theorem openaiCompSection_hash (st : OpenAIState) (resp : HttpResponse) (gw : Nat)
    (h : resp.status = 200) :
    ((openaiCompSection st resp gw).1).lastCompBodyHash = md5 resp.body := by
  unfold openaiCompSection
  dsimp only
  rw [if_neg (by rw [h]; decide), if_pos h]
  split
  · repeat' split
    all_goals rfl
  · rename_i heq
    exact (not_not.mp heq).symm

theorem openaiCompSection_keeps_inc (st : OpenAIState) (resp : HttpResponse) (gw : Nat) :
    ((openaiCompSection st resp gw).1).lastIncBodyHash = st.lastIncBodyHash ∧
    ((openaiCompSection st resp gw).1).lastIncidentHashes = st.lastIncidentHashes ∧
    ((openaiCompSection st resp gw).1).incEtag = st.incEtag ∧
    ((openaiCompSection st resp gw).1).incModified = st.incModified ∧
    ((openaiCompSection st resp gw).1).consecutiveErrors = st.consecutiveErrors := by
  unfold openaiCompSection
  dsimp only
  repeat' split
  all_goals exact ⟨rfl, rfl, rfl, rfl, rfl⟩

theorem openaiIncSection_hash (st : OpenAIState) (resp : HttpResponse) (gw : Nat)
    (h : resp.status = 200) :
    ((openaiIncSection st resp gw).1).lastIncBodyHash = md5 resp.body := by
  unfold openaiIncSection
  dsimp only
  rw [if_neg (by rw [h]; decide), if_pos h]
  split
  · repeat' split
    all_goals rfl
  · rename_i heq
    exact (not_not.mp heq).symm

theorem openaiIncSection_keeps_comp (st : OpenAIState) (resp : HttpResponse) (gw : Nat) :
    ((openaiIncSection st resp gw).1).lastCompBodyHash = st.lastCompBodyHash ∧
    ((openaiIncSection st resp gw).1).lastComponentStatuses = st.lastComponentStatuses ∧
    ((openaiIncSection st resp gw).1).compEtag = st.compEtag ∧
    ((openaiIncSection st resp gw).1).compModified = st.compModified ∧
    ((openaiIncSection st resp gw).1).firstRun = st.firstRun ∧
    ((openaiIncSection st resp gw).1).consecutiveErrors = st.consecutiveErrors := by
  unfold openaiIncSection
  dsimp only
  repeat' split
  all_goals exact ⟨rfl, rfl, rfl, rfl, rfl, rfl⟩

theorem openaiCompSection_skip (st : OpenAIState) (resp : HttpResponse) (gw : Nat)
    (h : resp.status = 200) (hh : md5 resp.body = st.lastCompBodyHash) :
    openaiCompSection st resp gw =
      ({ st with compEtag := resp.etag.getD st.compEtag,
                 compModified := resp.lastModified.getD st.compModified }, [], none) := by
  unfold openaiCompSection
  dsimp only
  rw [if_neg (by rw [h]; decide), if_pos h, if_neg (not_not.mpr hh)]

theorem openaiIncSection_skip (st : OpenAIState) (resp : HttpResponse) (gw : Nat)
    (h : resp.status = 200) (hh : md5 resp.body = st.lastIncBodyHash) :
    openaiIncSection st resp gw =
      ({ st with incEtag := resp.etag.getD st.incEtag,
                 incModified := resp.lastModified.getD st.incModified }, [], none) := by
  unfold openaiIncSection
  dsimp only
  rw [if_neg (by rw [h]; decide), if_pos h, if_neg (not_not.mpr hh)]

theorem openaiCycle_success_state (ost : OpenAIState) (c i : HttpResponse) (gw : Nat)
    (hc : c.status = 200) (hi : i.status = 200)
    (h0 : (openaiCycle ost (.ok c) (.ok i) gw).state.consecutiveErrors = 0) :
    (openaiCycle ost (.ok c) (.ok i) gw).state.lastCompBodyHash = md5 c.body ∧
    (openaiCycle ost (.ok c) (.ok i) gw).state.lastIncBodyHash = md5 i.body ∧
    (openaiCycle ost (.ok c) (.ok i) gw).state.firstRun = false := by
  unfold openaiCycle at *
  dsimp only at *
  rcases heqC : openaiCompSection ost c gw with ⟨st₁, f₁, errC⟩
  rw [heqC] at h0
  cases errC with
  | some e => simp at h0
  | none =>
    dsimp only at h0 ⊢
    rcases heqI : openaiIncSection st₁ i gw with ⟨st₂, f₂, errI⟩
    rw [heqI] at h0
    cases errI with
    | some e => simp at h0
    | none =>
      refine ⟨?_, ?_, rfl⟩
      · have hk := (openaiIncSection_keeps_comp st₁ i gw).1
        rw [heqI] at hk
        dsimp only at hk
        rw [hk]
        have hh := openaiCompSection_hash ost c gw hc
        rw [heqC] at hh
        exact hh
      · have hh := openaiIncSection_hash st₁ i gw hi
        rw [heqI] at hh
        exact hh

theorem openaiCycle_idempotent (ost : OpenAIState) (c₁ i₁ c₂ i₂ : HttpResponse)
    (gw₁ gw₂ : Nat)
    (hc₁ : c₁.status = 200) (hi₁ : i₁.status = 200)
    (hc₂ : c₂.status = 200) (hi₂ : i₂.status = 200)
    (hcb : c₂.body = c₁.body) (hib : i₂.body = i₁.body)
    (h0 : (openaiCycle ost (.ok c₁) (.ok i₁) gw₁).state.consecutiveErrors = 0) :
    (openaiCycle (openaiCycle ost (.ok c₁) (.ok i₁) gw₁).state
      (.ok c₂) (.ok i₂) gw₂).forwards = [] ∧
    (openaiCycle (openaiCycle ost (.ok c₁) (.ok i₁) gw₁).state
      (.ok c₂) (.ok i₂) gw₂).state =
      { (openaiCycle ost (.ok c₁) (.ok i₁) gw₁).state with
          compEtag := c₂.etag.getD
            (openaiCycle ost (.ok c₁) (.ok i₁) gw₁).state.compEtag,
          compModified := c₂.lastModified.getD
            (openaiCycle ost (.ok c₁) (.ok i₁) gw₁).state.compModified,
          incEtag := i₂.etag.getD
            (openaiCycle ost (.ok c₁) (.ok i₁) gw₁).state.incEtag,
          incModified := i₂.lastModified.getD
            (openaiCycle ost (.ok c₁) (.ok i₁) gw₁).state.incModified } := by
  obtain ⟨hch, hih, hfr⟩ := openaiCycle_success_state ost c₁ i₁ gw₁ hc₁ hi₁ h0
  set st₁ := (openaiCycle ost (.ok c₁) (.ok i₁) gw₁).state with hst₁
  have hcycle : openaiCycle st₁ (.ok c₂) (.ok i₂) gw₂ =
      ⟨{ st₁ with
           compEtag := c₂.etag.getD st₁.compEtag,
           compModified := c₂.lastModified.getD st₁.compModified,
           incEtag := i₂.etag.getD st₁.incEtag,
           incModified := i₂.lastModified.getD st₁.incModified,
           firstRun := false, consecutiveErrors := 0 }, [], false⟩ := by
    unfold openaiCycle
    dsimp only
    rw [openaiCompSection_skip st₁ c₂ gw₂ hc₂ (by rw [hcb]; exact hch.symm)]
    dsimp only
    rw [openaiIncSection_skip _ i₂ gw₂ hi₂ (by rw [hib]; exact hih.symm)]
    rfl
  rw [hcycle]
  refine ⟨rfl, ?_⟩
  simp only [hst₁.symm, hfr, h0]

/-- Helper: an Apple cycle following a 200 cycle with a byte-identical body
skips — it forwards nothing and only resets the error counter. -/
theorem appleCycle_idempotent (ast : AppleState) (r₁ r₂ : HttpResponse) (gw₁ gw₂ : Nat)
    (h₁ : r₁.status = 200) (h₂ : r₂.status = 200) (hb : r₂.body = r₁.body) :
    (appleCycle (appleCycle ast (.ok r₁) gw₁).state (.ok r₂) gw₂).forwards = [] ∧
    (appleCycle (appleCycle ast (.ok r₁) gw₁).state (.ok r₂) gw₂).state =
      { (appleCycle ast (.ok r₁) gw₁).state with consecutiveErrors := 0 } :=
  appleCycle_skip _ r₂ gw₂ h₂ (by rw [hb]; exact (appleCycle_lastHash ast r₁ gw₁ h₁).symm)

/-- C2 counterexample: the Discord poller forwards again on a second 200
response with a byte-identical body — it keeps no body hash at all — so
the claimed body-level short-circuit fails for it. -/
theorem C2_counterexample :
    (discordCycle (discordCycle discordInitialState
      (.ok ⟨200, none, none, "\x7b\x7d"⟩) 202).state
      (.ok ⟨200, none, none, "\x7b\x7d"⟩) 202).forwards.length = 1 ∧
    (1 : Nat) ≠ 0 :=
  ⟨rfl, by decide⟩

/-- C2 (amended): the hash-equality short-circuit holds for the Apple
scraper and the OpenAI poller — after a successful 200 cycle, a second 200
cycle with byte-identical bodies forwards nothing and changes nothing
beyond refreshing the conditional-request tokens and resetting the error
counter.  The Discord poller has no body-hash cache and forwards on every
200 response, relying solely on HTTP 304 for suppression. -/
theorem C2_body_hash_short_circuit :
    (∀ (ast : AppleState) (r₁ r₂ : HttpResponse) (gw₁ gw₂ : Nat),
      r₁.status = 200 → r₂.status = 200 → r₂.body = r₁.body →
      (appleCycle (appleCycle ast (.ok r₁) gw₁).state (.ok r₂) gw₂).forwards = [] ∧
      (appleCycle (appleCycle ast (.ok r₁) gw₁).state (.ok r₂) gw₂).state =
        { (appleCycle ast (.ok r₁) gw₁).state with consecutiveErrors := 0 }) ∧
    (∀ (ost : OpenAIState) (c₁ i₁ c₂ i₂ : HttpResponse) (gw₁ gw₂ : Nat),
      c₁.status = 200 → i₁.status = 200 → c₂.status = 200 → i₂.status = 200 →
      c₂.body = c₁.body → i₂.body = i₁.body →
      (openaiCycle ost (.ok c₁) (.ok i₁) gw₁).state.consecutiveErrors = 0 →
      (openaiCycle (openaiCycle ost (.ok c₁) (.ok i₁) gw₁).state
        (.ok c₂) (.ok i₂) gw₂).forwards = [] ∧
      (openaiCycle (openaiCycle ost (.ok c₁) (.ok i₁) gw₁).state
        (.ok c₂) (.ok i₂) gw₂).state =
        { (openaiCycle ost (.ok c₁) (.ok i₁) gw₁).state with
            compEtag := c₂.etag.getD
              (openaiCycle ost (.ok c₁) (.ok i₁) gw₁).state.compEtag,
            compModified := c₂.lastModified.getD
              (openaiCycle ost (.ok c₁) (.ok i₁) gw₁).state.compModified,
            incEtag := i₂.etag.getD
              (openaiCycle ost (.ok c₁) (.ok i₁) gw₁).state.incEtag,
            incModified := i₂.lastModified.getD
              (openaiCycle ost (.ok c₁) (.ok i₁) gw₁).state.incModified }) ∧
    (∀ (dst : DiscordState) (e m : Option String),
      (discordCycle dst (.ok ⟨200, e, m, "\x7b\x7d"⟩) 202).forwards = ["\x7b\x7d"]) :=
  ⟨appleCycle_idempotent,
   fun ost c₁ i₁ c₂ i₂ gw₁ gw₂ hc₁ hi₁ hc₂ hi₂ hcb hib h0 =>
     openaiCycle_idempotent ost c₁ i₁ c₂ i₂ gw₁ gw₂ hc₁ hi₁ hc₂ hi₂ hcb hib h0,
   fun _ _ _ => rfl⟩

/-- C2 witness: the Apple scraper and the OpenAI poller each forward
nothing on a second identical-body 200 cycle, instantiated at concrete
responses from their initial states. -/
theorem C2_body_hash_short_circuit_witness :
    (appleCycle (appleCycle appleInitialState (.ok ⟨200, none, none, "b"⟩) 202).state
      (.ok ⟨200, none, none, "b"⟩) 202).forwards = [] ∧
    (openaiCycle (openaiCycle openaiInitialState (.ok ⟨200, none, none, "\x7b\x7d"⟩)
      (.ok ⟨200, none, none, "\x7b\x7d"⟩) 202).state
      (.ok ⟨200, none, none, "\x7b\x7d"⟩) (.ok ⟨200, none, none, "\x7b\x7d"⟩)
      202).forwards = [] :=
  ⟨(C2_body_hash_short_circuit.1 appleInitialState ⟨200, none, none, "b"⟩
      ⟨200, none, none, "b"⟩ 202 202 rfl rfl rfl).1,
   (C2_body_hash_short_circuit.2.1 openaiInitialState ⟨200, none, none, "\x7b\x7d"⟩
      ⟨200, none, none, "\x7b\x7d"⟩ ⟨200, none, none, "\x7b\x7d"⟩
      ⟨200, none, none, "\x7b\x7d"⟩ 202 202 rfl rfl rfl rfl rfl rfl (by rfl)).1⟩
